import Mathlib

/-!
Shallow embedding of `src/frontend/app.js` (Music Genre Classifier front end)
and verification of its specified behaviour.

Modelling conventions:
  - JS numbers are modelled as exact rationals (`ℚ`); `Math.round` is
    modelled by `jsRound` (floor of x + 1/2, which is what `Math.round`
    computes for finite inputs).
  - DOM state touched by a handler is modelled as an explicit record; each
    handler becomes a pure state-transition function.
  - Asynchronous callbacks (fetch results, `getUserMedia`, timers) are
    modelled by passing the outcome of the external call as an explicit
    argument to the handler; handlers run to completion between events.
-/

namespace GenreFrontend

/-! ## Data model (spec section 3 and the JSON shapes of section 6) -/

/-- One entry of `top_genres`: a genre name with its confidence. -/
structure GenreConf where
  genre : String
  confidence : ℚ
  deriving Repr, DecidableEq

/-- The Prediction Result JSON body as the front end consumes it
(`data` in the handlers).  `top_genres` is `none` when the field is
absent (`data.top_genres || []` in `showResults`), and `error` models the
optional backend-supplied `error` string used by the failure branches. -/
structure Prediction where
  genre : String
  confidence : ℚ
  top_genres : Option (List GenreConf)
  error : Option String
  deriving Repr, DecidableEq

/-- `Math.round` on a finite JS number: floor(x + 1/2). -/
def jsRound (q : ℚ) : ℤ := Int.floor (q + 1 / 2)

/-- JS `v || dflt` on an optional string: the default replaces both a
missing field and an empty (falsy) string. -/
def jsOrString (v : Option String) (dflt : String) : String :=
  match v with
  | some s => if s = "" then dflt else s
  | none => dflt

/-! ## Health Check — `checkHealth`, app.js lines 95-106 -/

/-- The status badge: whether the `online` CSS class is set and the text of
the `.status-text` element. -/
structure StatusBadge where
  online : Bool
  statusText : String
  deriving Repr, DecidableEq

/-- `Response.ok`: HTTP status in the range 200-299. -/
def resOk (status : ℕ) : Bool := 200 ≤ status && status < 300

/-- `checkHealth` (app.js 95-106): `fetch` of `/health` either throws
(`none`, the network-error case, caught by `catch`) or yields a response
with the given status.  On `res.ok` the badge gains the `online` class and
the text `Online`; the `catch` clears the class and writes `Offline`; a
non-ok response takes neither branch and leaves the badge untouched. -/
def checkHealth (badge : StatusBadge) (res : Option ℕ) : StatusBadge :=
  match res with
  | some status =>
      if resOk status then { online := true, statusText := "Online" }
      else badge
  | none => { online := false, statusText := "Offline" }

/-! ## File Upload — `handleFile` (154-161) and the `fileRemove` click
handler (163-169) -/

/-- A selected file: the fields `handleFile` reads. -/
structure JsFile where
  name : String
  size : ℕ
  deriving Repr, DecidableEq

/-- `toFixed(1)` on a nonnegative rational (round to one decimal place,
then print with one digit after the point). -/
def toFixed1 (q : ℚ) : String :=
  let n : ℤ := jsRound (q * 10)
  toString (n / 10) ++ "." ++ toString (n % 10)

/-- `formatBytes` (app.js 453-457). -/
def formatBytes (bytes : ℕ) : String :=
  if bytes < 1024 then toString bytes ++ " B"
  else if bytes < 1048576 then toFixed1 ((bytes : ℚ) / 1024) ++ " KB"
  else toFixed1 ((bytes : ℚ) / 1048576) ++ " MB"

/-- The DOM state touched by the upload panel: the `selectedFile` module
variable, the file input value, the name/size labels, the `display` styles
of the file-info row and the drop zone, and whether `btnPredict` is
disabled. -/
structure UploadUI where
  selectedFile : Option JsFile
  fileInputValue : String
  fileNameText : String
  fileSizeText : String
  fileInfoDisplay : String
  dropZoneDisplay : String
  btnPredictDisabled : Bool
  deriving Repr, DecidableEq

/-- `handleFile` (app.js 154-161). -/
def handleFile (file : JsFile) (ui : UploadUI) : UploadUI :=
  { ui with
    selectedFile := some file
    fileNameText := file.name
    fileSizeText := formatBytes file.size
    fileInfoDisplay := "flex"
    dropZoneDisplay := "none"
    btnPredictDisabled := false }

/-- The `fileRemove` click handler (app.js 163-169). -/
def fileRemoveClick (ui : UploadUI) : UploadUI :=
  { ui with
    selectedFile := none
    fileInputValue := ""
    fileInfoDisplay := "none"
    dropZoneDisplay := "block"
    btnPredictDisabled := true }

/-! ## Prediction Client — the three predict click/stop handlers
(app.js 171-189, 213-243, 326-349) -/

/-- Outcome of a `fetch` followed by `res.json()`: `networkError` when the
fetch itself rejects; otherwise a response with `res.ok` and the parsed
body (`none` when `res.json()` throws, which lands in the same `catch`). -/
inductive FetchOutcome where
  | networkError
  | response (ok : Bool) (body : Option Prediction)
  deriving Repr, DecidableEq

/-- The single UI call a predict handler ends with: either
`showResults data` or `showError msg`. -/
inductive UIEffect where
  | renderResults (data : Prediction)
  | notifyError (msg : String)
  deriving Repr, DecidableEq

/-- Whether an effect is a call to the Results Renderer. -/
def UIEffect.isRenderResults : UIEffect → Bool
  | .renderResults _ => true
  | .notifyError _ => false

/-- The `btnPredict` click handler (app.js 171-189): try-branch on the
fetch outcome; success renders, a non-ok response notifies with
`data.error || 'Prediction failed'`, anything thrown is caught and
notified. -/
def btnPredictHandler : FetchOutcome → UIEffect
  | .networkError => .notifyError "Could not reach the server. Is it running?"
  | .response ok body =>
      match body with
      | none => .notifyError "Could not reach the server. Is it running?"
      | some data =>
          if ok then .renderResults data
          else .notifyError (jsOrString data.error "Prediction failed")

/-- The fetch part of `mediaRecorder.onstop` (app.js 225-239). -/
def recordPredictHandler : FetchOutcome → UIEffect
  | .networkError => .notifyError "Could not reach the server."
  | .response ok body =>
      match body with
      | none => .notifyError "Could not reach the server."
      | some data =>
          if ok then .renderResults data
          else .notifyError (jsOrString data.error "Prediction failed")

/-- The `btnSystem` click handler (app.js 326-349). -/
def btnSystemHandler : FetchOutcome → UIEffect
  | .networkError => .notifyError "Could not reach the server. Is it running?"
  | .response ok body =>
      match body with
      | none => .notifyError "Could not reach the server. Is it running?"
      | some data =>
          if ok then .renderResults data
          else .notifyError (jsOrString data.error "System audio capture failed")

/-! ## Microphone Recording — `btnRecord` click handler (195-201),
`startRecording` (203-266), `stopRecording` (268-272),
`cleanupAudio` (274-283)

Streams and audio contexts are identified by numeric ids.  The module
globals `mediaRecorder`, `audioStream`, `audioContext` become fields; the
ghost lists `acquiredStreams` / `stoppedStreams` / `closedContexts` record
every `getUserMedia` acquisition, every `track.stop()` teardown and every
`audioContext.close()`, in order, so that "acquired/stopped exactly once"
is expressible. -/

/-- Recording-session state.  `mediaRecorder = some true` models a
recorder whose `state` is `recording`; `some false` one that has been
stopped; `none` the initial null. -/
structure RecState where
  mediaRecorder : Option Bool
  audioStream : Option ℕ
  audioContext : Option ℕ
  acquiredStreams : List ℕ
  stoppedStreams : List ℕ
  closedContexts : List ℕ
  deriving Repr, DecidableEq

/-- `cleanupAudio` (app.js 274-283): stop the tracks of the current
stream and null it; close the current context and null it; each guarded
by a null check. -/
def cleanupAudio (st : RecState) : RecState :=
  let st1 :=
    match st.audioStream with
    | some s =>
        { st with stoppedStreams := st.stoppedStreams ++ [s], audioStream := none }
    | none => st
  match st1.audioContext with
  | some c =>
      { st1 with closedContexts := st1.closedContexts ++ [c], audioContext := none }
  | none => st1

/-- How far `startRecording`'s try-block gets before throwing, if at all:
`gumDenied` — `getUserMedia` rejects, nothing acquired, the `catch` shows
the error; `recorderCtorThrew` — the stream is acquired and assigned to
the global, then `new MediaRecorder(audioStream)` throws and the `catch`
runs (which performs no teardown); `started` — everything succeeds and
`startWaveform` opens a fresh audio context. -/
inductive StartOutcome where
  | gumDenied
  | recorderCtorThrew
  | started
  deriving Repr, DecidableEq

/-- `startRecording` (app.js 203-266), parametrised by where its
try-block stops and by the ids of the fresh stream/context the browser
hands out.  Note the `catch` (263-265) only calls `showError`: it touches
none of the audio state. -/
def startRecording (st : RecState) (outcome : StartOutcome)
    (newStream newCtx : ℕ) : RecState :=
  match outcome with
  | .gumDenied => st
  | .recorderCtorThrew =>
      { st with
        audioStream := some newStream
        acquiredStreams := st.acquiredStreams ++ [newStream] }
  | .started =>
      { st with
        audioStream := some newStream
        acquiredStreams := st.acquiredStreams ++ [newStream]
        mediaRecorder := some true
        audioContext := some newCtx }

/-- `stopRecording` (268-272) together with the `onstop` handler it
triggers (213-243): guarded by the recorder being in state `recording`;
the recorder transitions to inactive and the handler ends by calling
`cleanupAudio` (242). -/
def stopRecording (st : RecState) : RecState :=
  if st.mediaRecorder = some true then
    cleanupAudio { st with mediaRecorder := some false }
  else st

/-- The `btnRecord` click handler (195-201): stop when a recorder exists
and is recording, otherwise start. -/
def btnRecordClick (st : RecState) (outcome : StartOutcome)
    (newStream newCtx : ℕ) : RecState :=
  if st.mediaRecorder = some true then stopRecording st
  else startRecording st outcome newStream newCtx

/-! ## Error Notifier — `showError` (423-433) and the `errorClose`
click handler (435-437)

`pending` holds the absolute fire times of the `setTimeout` callbacks
scheduled by past `showError` calls that have not fired yet; `showError`
appends `now + 6000` and never cancels anything. -/

/-- Toast state: visibility, current message, and the pending hide
timers. -/
structure ToastState where
  visible : Bool
  message : String
  pending : List ℕ
  deriving Repr, DecidableEq

/-- `showError` (app.js 423-433) invoked at absolute time `now` (ms):
write the message, show the toast, schedule a hide 6000 ms later. -/
def showError (now : ℕ) (msg : String) (st : ToastState) : ToastState :=
  { visible := true
    message := msg
    pending := st.pending ++ [now + 6000] }

/-- The `setTimeout` callback scheduled for time `t` fires: it hides the
toast unconditionally (431).  The guard `t ∈ pending` restricts the model
to callbacks that were actually scheduled and have not fired yet. -/
def hideTimerFire (t : ℕ) (st : ToastState) : ToastState :=
  if t ∈ st.pending then
    { st with visible := false, pending := st.pending.erase t }
  else st

/-- The `errorClose` click handler (435-437). -/
def errorCloseClick (st : ToastState) : ToastState :=
  { st with visible := false }

/-! ## Results Renderer — `showResults` (app.js 355-417) -/

/-- `GENRE_EMOJIS` (app.js 6-17). -/
def GENRE_EMOJIS : String → Option String
  | "blues" => some "🎷"
  | "classical" => some "🎻"
  | "country" => some "🤠"
  | "disco" => some "🪩"
  | "hiphop" => some "🎤"
  | "jazz" => some "🎹"
  | "metal" => some "🤘"
  | "pop" => some "🎵"
  | "reggae" => some "🌴"
  | "rock" => some "🎸"
  | _ => none

/-- `Math.PI` as the exact rational value of its IEEE-754 double. -/
def mathPI : ℚ := 884279719003555 / 281474976710656

/-- `const circumference = 2 * Math.PI * 52` (app.js 371). -/
def circumference : ℚ := 2 * mathPI * 52

/-- One rendered row of the bar chart: the label text, whether it carries
the `top` class, its `animationDelay` in seconds, the final bar width in
percent (the value the two nested `requestAnimationFrame` callbacks write,
app.js 411-415), and the numeric percentage shown in the
`chart-percent` span (formatted with `toFixed(1)` in the DOM). -/
structure ChartRow where
  label : String
  isTop : Bool
  animationDelay : ℚ
  width : ℚ
  displayPct : ℚ
  deriving Repr, DecidableEq

/-- `const maxConf = topGenres.length > 0 ? topGenres[0].confidence : 1`
(app.js 391). -/
def maxConfOf (topGenres : List GenreConf) : ℚ :=
  match topGenres with
  | [] => 1
  | item :: _ => item.confidence

/-- The body of the `topGenres.forEach((item, i) => ...)` loop
(app.js 393-416) for index `i`. -/
def mkChartRow (maxConf : ℚ) (i : ℕ) (item : GenreConf) : ChartRow :=
  { label := (GENRE_EMOJIS item.genre).getD "🎵" ++ " " ++ item.genre
    isTop := i == 0
    animationDelay := (i : ℚ) * (5 / 100)
    width := if maxConf > 0 then item.confidence / maxConf * 100 else 0
    displayPct := item.confidence * 100 }

/-- The bar-chart part of `showResults` (388-416): clear `chartBars`,
compute `maxConf`, and append one row per entry, in order. -/
def chartRows (topGenres : List GenreConf) : List ChartRow :=
  let maxConf := maxConfOf topGenres
  topGenres.enum.map fun p => mkChartRow maxConf p.1 p.2

/-- The results-area DOM state that `showResults` writes: visibility,
emoji and name of the top genre, the number inside the ring, the ring's
`strokeDashoffset`, whether the `ringGradient` SVG defs node is present,
and the children of `chartBars`. -/
structure Display where
  resultsVisible : Bool
  genreEmoji : String
  genreName : String
  confidenceValue : ℤ
  ringDashoffset : ℚ
  ringGradientPresent : Bool
  chartBars : List ChartRow
  deriving Repr, DecidableEq

/-- `showResults` (app.js 355-417) as a transition on the results DOM
state: every output is recomputed from `data`; the only read of the
previous state is the `document.getElementById('ringGradient')` guard
(376), which injects the gradient when absent. -/
def showResults (data : Prediction) (prev : Display) : Display :=
  { resultsVisible := true
    genreEmoji := (GENRE_EMOJIS data.genre).getD "🎵"
    genreName := data.genre
    confidenceValue := jsRound (data.confidence * 100)
    ringDashoffset := circumference * (1 - data.confidence)
    ringGradientPresent :=
      if prev.ringGradientPresent then prev.ringGradientPresent else true
    chartBars := chartRows (data.top_genres.getD []) }

/-- The results area as the page loads: hidden, empty, no gradient. -/
def initialDisplay : Display :=
  { resultsVisible := false
    genreEmoji := ""
    genreName := ""
    confidenceValue := 0
    ringDashoffset := 0
    ringGradientPresent := false
    chartBars := [] }

/-! ## Spec-side definition for claim C1

The spec phrases bar widths relative to "the highest confidence in the
list"; the source divides by the first entry.  `maxConfidence` is the
spec's notion, to be compared with `maxConfOf`. -/

/-- The highest confidence occurring in the list (0 for the empty list). -/
def maxConfidence (l : List GenreConf) : ℚ :=
  l.foldr (fun g m => max g.confidence m) 0

/-! ## Helper lemmas -/

/-- The widths of the rows built from an indexed list do not depend on the
indices. -/
lemma width_enumFrom_map (m : ℚ) (n : ℕ) (l : List GenreConf) :
    ((List.enumFrom n l).map fun p => (mkChartRow m p.1 p.2).width)
      = l.map fun g => if m > 0 then g.confidence / m * 100 else 0 := by
  induction l generalizing n with
  | nil => rfl
  | cons hd tl ih =>
      have h1 : List.enumFrom n (hd :: tl)
          = (n, hd) :: List.enumFrom (n + 1) tl := rfl
      rw [h1, List.map_cons, List.map_cons, ih]
      rfl

/-- The rendered bar widths, as a function of the list alone. -/
lemma chartRows_map_width (l : List GenreConf) :
    (chartRows l).map ChartRow.width
      = l.map fun g =>
          if maxConfOf l > 0 then g.confidence / maxConfOf l * 100 else 0 := by
  unfold chartRows
  rw [List.map_map]
  exact width_enumFrom_map (maxConfOf l) 0 l

/-- An upper bound on every confidence bounds the fold computing the
maximum. -/
lemma foldr_max_le (c : ℚ) (l : List GenreConf)
    (h : ∀ g ∈ l, g.confidence ≤ c) (h0 : 0 ≤ c) :
    l.foldr (fun g m => max g.confidence m) 0 ≤ c := by
  induction l with
  | nil => simpa using h0
  | cons hd tl ih =>
      simp only [List.foldr_cons]
      exact max_le (h hd (by simp)) (ih fun g hg => h g (by simp [hg]))

/-- When the head dominates the tail, the highest confidence in the list
is the head's. -/
lemma maxConfidence_head (hd : GenreConf) (tl : List GenreConf)
    (hmax : ∀ g ∈ tl, g.confidence ≤ hd.confidence)
    (hpos : 0 ≤ hd.confidence) :
    maxConfidence (hd :: tl) = hd.confidence := by
  unfold maxConfidence
  simp only [List.foldr_cons]
  exact max_eq_left (foldr_max_le hd.confidence tl hmax hpos)

/-- `cleanupAudio` never touches the acquisition log. -/
lemma cleanupAudio_acquired (st : RecState) :
    (cleanupAudio st).acquiredStreams = st.acquiredStreams := by
  obtain ⟨mr, as, ac, acq, stp, cls⟩ := st
  cases as <;> cases ac <;> rfl

/-- `cleanupAudio` never touches the recorder. -/
lemma cleanupAudio_mediaRecorder (st : RecState) :
    (cleanupAudio st).mediaRecorder = st.mediaRecorder := by
  obtain ⟨mr, as, ac, acq, stp, cls⟩ := st
  cases as <;> cases ac <;> rfl

/-! ## Claims -/

/-- C1: for a Prediction Result whose `top_genres` head dominates the
rest (the spec's descending order) and has positive confidence, the
rendered bar widths are, in list order, each entry's confidence divided
by the highest confidence in the list, times 100. -/
theorem c1_bar_widths_relative_to_max (hd : GenreConf) (tl : List GenreConf)
    (hmax : ∀ g ∈ tl, g.confidence ≤ hd.confidence)
    (hpos : 0 < hd.confidence) :
    (chartRows (hd :: tl)).map ChartRow.width
      = (hd :: tl).map
          fun g => g.confidence / maxConfidence (hd :: tl) * 100 := by
  rw [chartRows_map_width, maxConfidence_head hd tl hmax (le_of_lt hpos)]
  have hm : maxConfOf (hd :: tl) = hd.confidence := rfl
  rw [hm]
  simp [hpos]

/-- The spec's worked example for the bar chart. -/
def rockPopJazz : List GenreConf :=
  [⟨"rock", 6/10⟩, ⟨"pop", 3/10⟩, ⟨"jazz", 1/10⟩]

/-- C1 witness: the spec's example `[rock 0.6, pop 0.3, jazz 0.1]` yields
widths `100%, 50%, 50/3 %` (the last displayed as `16.7%`). -/
theorem c1_bar_widths_witness :
    ((chartRows rockPopJazz).map ChartRow.width
      = rockPopJazz.map
          fun g => g.confidence / maxConfidence rockPopJazz * 100) ∧
    (chartRows rockPopJazz).map ChartRow.width = [100, 50, 50/3] := by
  have hmax : ∀ g ∈ [GenreConf.mk "pop" (3/10), GenreConf.mk "jazz" (1/10)],
      g.confidence ≤ (GenreConf.mk "rock" (6/10)).confidence := by
    intro g hg
    fin_cases hg <;> norm_num
  have hpos : 0 < (GenreConf.mk "rock" (6/10)).confidence := by norm_num
  have h1 := c1_bar_widths_relative_to_max (GenreConf.mk "rock" (6/10))
    [GenreConf.mk "pop" (3/10), GenreConf.mk "jazz" (1/10)] hmax hpos
  have hA : (chartRows rockPopJazz).map ChartRow.width
      = rockPopJazz.map
          fun g => g.confidence / maxConfidence rockPopJazz * 100 := h1
  refine ⟨hA, ?_⟩
  have hM : maxConfidence rockPopJazz = 6/10 :=
    maxConfidence_head (GenreConf.mk "rock" (6/10))
      [GenreConf.mk "pop" (3/10), GenreConf.mk "jazz" (1/10)] hmax
      (le_of_lt hpos)
  rw [hA, hM]
  simp only [rockPopJazz, List.map_cons, List.map_nil]
  norm_num

/-- C2 counterexample: a non-success HTTP response (status 500) does not
mark the badge offline — `checkHealth` only writes `Offline` in its
`catch`, so a previously-online badge stays online. -/
theorem c2_non_success_leaves_badge_counterexample :
    resOk 500 = false ∧
    checkHealth { online := true, statusText := "Online" } (some 500)
      = { online := true, statusText := "Online" } := by
  refine ⟨by decide, rfl⟩

/-- C2 amended: a successful (2xx) liveness response marks the badge
online; a network error marks it offline; a non-success HTTP response
leaves the badge unchanged. -/
theorem c2_health_badge_amended (badge : StatusBadge) (status : ℕ) :
    (resOk status = true →
      checkHealth badge (some status)
        = { online := true, statusText := "Online" }) ∧
    (resOk status = false → checkHealth badge (some status) = badge) ∧
    checkHealth badge none = { online := false, statusText := "Offline" } := by
  refine ⟨fun h => ?_, fun h => ?_, rfl⟩
  · simp [checkHealth, h]
  · simp [checkHealth, h]

/-- C2 witness: the three branches at statuses 200 and 503 and on a
network error. -/
theorem c2_health_badge_witness :
    checkHealth { online := false, statusText := "Offline" } (some 200)
      = { online := true, statusText := "Online" } ∧
    checkHealth { online := true, statusText := "Online" } (some 503)
      = { online := true, statusText := "Online" } ∧
    checkHealth { online := true, statusText := "Online" } none
      = { online := false, statusText := "Offline" } :=
  ⟨(c2_health_badge_amended { online := false, statusText := "Offline" } 200).1
      (by decide),
   (c2_health_badge_amended { online := true, statusText := "Online" } 503).2.1
      (by decide),
   (c2_health_badge_amended { online := true, statusText := "Online" } 0).2.2⟩

/-- C5: a network error on any of the three predict requests makes the
handler call the Error Notifier with a message, and the effect is not a
call to the Results Renderer. -/
theorem c5_network_error_notifies_never_renders :
    btnPredictHandler .networkError
      = .notifyError "Could not reach the server. Is it running?" ∧
    recordPredictHandler .networkError
      = .notifyError "Could not reach the server." ∧
    btnSystemHandler .networkError
      = .notifyError "Could not reach the server. Is it running?" ∧
    (btnPredictHandler .networkError).isRenderResults = false ∧
    (recordPredictHandler .networkError).isRenderResults = false ∧
    (btnSystemHandler .networkError).isRenderResults = false :=
  ⟨rfl, rfl, rfl, rfl, rfl, rfl⟩

/-- C8: selecting a file enables the predict button and records the file;
removing it disables the button, clears the selected-file state and the
input value, hides the file-info row and restores the drop zone. -/
theorem c8_file_select_remove (file : JsFile) (ui : UploadUI) :
    (handleFile file ui).btnPredictDisabled = false ∧
    (handleFile file ui).selectedFile = some file ∧
    (handleFile file ui).fileInfoDisplay = "flex" ∧
    (handleFile file ui).dropZoneDisplay = "none" ∧
    (fileRemoveClick ui).btnPredictDisabled = true ∧
    (fileRemoveClick ui).selectedFile = none ∧
    (fileRemoveClick ui).fileInputValue = "" ∧
    (fileRemoveClick ui).fileInfoDisplay = "none" ∧
    (fileRemoveClick ui).dropZoneDisplay = "block" :=
  ⟨rfl, rfl, rfl, rfl, rfl, rfl, rfl, rfl, rfl⟩

/-- C9: `showResults` overwrites every piece of the results display it
manages, so rendering the same Prediction Result twice leaves the display
exactly as rendering it once. -/
theorem c9_showResults_idempotent (data : Prediction) (st : Display) :
    showResults data (showResults data st) = showResults data st := by
  simp only [showResults]
  cases st.ringGradientPresent <;> simp

/-- C3 counterexample: when `startRecording` acquires the stream and then
throws (e.g. the `MediaRecorder` constructor), the `catch` (app.js
263-265) only shows an error: the session ends with the acquired stream's
tracks never stopped and nothing closed, contradicting "teardown on every
exit path". -/
theorem c3_error_path_no_teardown_counterexample :
    (startRecording ⟨none, none, none, [], [], []⟩
        .recorderCtorThrew 1 10).acquiredStreams = [1] ∧
    (startRecording ⟨none, none, none, [], [], []⟩
        .recorderCtorThrew 1 10).stoppedStreams = [] ∧
    (startRecording ⟨none, none, none, [], [], []⟩
        .recorderCtorThrew 1 10).audioStream = some 1 ∧
    (startRecording ⟨none, none, none, [], [], []⟩
        .recorderCtorThrew 1 10).closedContexts = [] :=
  ⟨rfl, rfl, rfl, rfl⟩

/-- C3 amended: when recording ends through the recorder's `onstop`
(stop button or natural completion), the stream's tracks are stopped and
the context closed, each exactly once — a repeated `cleanupAudio` is a
no-op because the globals were nulled; and when `getUserMedia` itself is
denied nothing is acquired.  An error thrown after acquisition performs
no teardown (the counterexample). -/
theorem c3_teardown_on_stop_amended (st : RecState) (s c : ℕ)
    (hrec : st.mediaRecorder = some true)
    (hs : st.audioStream = some s) (hc : st.audioContext = some c) :
    (stopRecording st).stoppedStreams = st.stoppedStreams ++ [s] ∧
    (stopRecording st).closedContexts = st.closedContexts ++ [c] ∧
    (stopRecording st).audioStream = none ∧
    (stopRecording st).audioContext = none ∧
    cleanupAudio (stopRecording st) = stopRecording st ∧
    (∀ st2 : RecState, ∀ ns nc : ℕ,
      startRecording st2 .gumDenied ns nc = st2) := by
  obtain ⟨mr, as, ac, acq, stp, cls⟩ := st
  dsimp only at hrec hs hc
  subst hrec hs hc
  refine ⟨?_, ?_, ?_, ?_, ?_, fun st2 ns nc => rfl⟩
  all_goals simp [stopRecording, cleanupAudio]

/-- C3 witness: a recording session holding stream 1 and context 10 is
stopped; the track-stop and the close each happen once and a second
teardown changes nothing. -/
theorem c3_teardown_witness :
    (stopRecording ⟨some true, some 1, some 10, [1], [], []⟩).stoppedStreams
      = [1] ∧
    (stopRecording ⟨some true, some 1, some 10, [1], [], []⟩).closedContexts
      = [10] ∧
    cleanupAudio (stopRecording ⟨some true, some 1, some 10, [1], [], []⟩)
      = stopRecording ⟨some true, some 1, some 10, [1], [], []⟩ := by
  have h := c3_teardown_on_stop_amended
    ⟨some true, some 1, some 10, [1], [], []⟩ 1 10 rfl rfl rfl
  exact ⟨h.1.trans rfl, h.2.1.trans rfl, h.2.2.2.2.1⟩

/-- C4 counterexample: `showError` never cancels the previous
`setTimeout`.  Showing "A" at t=0 and "B" at t=5000 leaves the stale
timer from "A" pending; it fires at t=6000 and hides the toast only
1000 ms after "B" was shown, with no user dismissal — not the claimed
fixed 6-second delay from the time "B" was shown. -/
theorem c4_stale_timer_counterexample :
    (hideTimerFire 6000
        (showError 5000 "B" (showError 0 "A" ⟨false, "", []⟩))).visible
      = false ∧
    (showError 5000 "B" (showError 0 "A" ⟨false, "", []⟩)).message = "B" ∧
    (showError 5000 "B" (showError 0 "A" ⟨false, "", []⟩)).pending
      = [6000, 11000] ∧
    6000 < 5000 + 6000 := by
  refine ⟨?_, rfl, rfl, by decide⟩
  simp [showError, hideTimerFire]

/-- C4 amended: `showError` replaces the displayed message (no queue) and
schedules a hide 6000 ms later; when no earlier hide timer is pending the
banner stays up until exactly that moment and is hidden by it (or earlier
by the explicit close button); a pending stale timer may hide it
sooner. -/
theorem c4_toast_amended (now : ℕ) (msg : String) (st : ToastState)
    (h : st.pending = []) :
    (showError now msg st).visible = true ∧
    (showError now msg st).message = msg ∧
    (showError now msg st).pending = [now + 6000] ∧
    (∀ t, t < now + 6000 →
      hideTimerFire t (showError now msg st) = showError now msg st) ∧
    (hideTimerFire (now + 6000) (showError now msg st)).visible = false ∧
    (errorCloseClick (showError now msg st)).visible = false := by
  refine ⟨rfl, rfl, ?_, fun t ht => ?_, ?_, rfl⟩
  · simp [showError, h]
  · simp [showError, hideTimerFire, h, Nat.ne_of_lt ht]
  · simp [showError, hideTimerFire, h]

/-- C4 witness: a single error on a quiet toast is shown and then hidden
by its own 6-second timer. -/
theorem c4_toast_witness :
    (showError 0 "X" ⟨false, "", []⟩).visible = true ∧
    (showError 0 "X" ⟨false, "", []⟩).message = "X" ∧
    (hideTimerFire (0 + 6000) (showError 0 "X" ⟨false, "", []⟩)).visible
      = false := by
  have h := c4_toast_amended 0 "X" ⟨false, "", []⟩ rfl
  exact ⟨h.1, h.2.1, h.2.2.2.2.1⟩

/-- C6: `showResults` sets the ring's stroke-dash offset to
`circumference * (1 - confidence)` with the fixed circumference
`2 * Math.PI * 52`, and the displayed percentage to
`Math.round(confidence * 100)`. -/
theorem c6_ring_offset_and_pct (data : Prediction) (prev : Display)
    (_h0 : 0 ≤ data.confidence) (_h1 : data.confidence ≤ 1) :
    (showResults data prev).ringDashoffset
      = circumference * (1 - data.confidence) ∧
    (showResults data prev).confidenceValue
      = jsRound (data.confidence * 100) :=
  ⟨rfl, rfl⟩

/-- C6 witness: at confidence 0.87 the offset is
`circumference * (1 - 0.87)` and the displayed number is 87. -/
theorem c6_ring_witness :
    (showResults
        { genre := "rock", confidence := 87/100,
          top_genres := none, error := none } initialDisplay).ringDashoffset
      = circumference * (1 - 87/100) ∧
    (showResults
        { genre := "rock", confidence := 87/100,
          top_genres := none, error := none } initialDisplay).confidenceValue
      = 87 := by
  have h := c6_ring_offset_and_pct
    { genre := "rock", confidence := 87/100, top_genres := none, error := none }
    initialDisplay (by norm_num) (by norm_num)
  refine ⟨h.1, h.2.trans ?_⟩
  show Int.floor ((87 : ℚ)/100 * 100 + 1/2) = 87
  norm_num

/-- C7: clicking the record button while the recorder is in state
`recording` runs `stopRecording` instead of `startRecording`: no new
stream is acquired and the ongoing recording is stopped. -/
theorem c7_second_click_stops (st : RecState) (o : StartOutcome)
    (s c : ℕ) (h : st.mediaRecorder = some true) :
    btnRecordClick st o s c = stopRecording st ∧
    (btnRecordClick st o s c).acquiredStreams = st.acquiredStreams ∧
    (btnRecordClick st o s c).mediaRecorder = some false := by
  have h1 : btnRecordClick st o s c = stopRecording st := by
    unfold btnRecordClick
    rw [if_pos h]
  have h2 : stopRecording st
      = cleanupAudio { st with mediaRecorder := some false } := by
    unfold stopRecording
    rw [if_pos h]
  refine ⟨h1, ?_, ?_⟩
  · rw [h1, h2, cleanupAudio_acquired]
  · rw [h1, h2, cleanupAudio_mediaRecorder]

/-- C7 witness: click to start (stream 1 acquired), click again — the
second click stops rather than acquiring stream 2: the acquisition log
still holds only stream 1 and the recorder is stopped. -/
theorem c7_second_click_witness :
    btnRecordClick
        (btnRecordClick ⟨none, none, none, [], [], []⟩ .started 1 10)
        .started 2 20
      = stopRecording
          (btnRecordClick ⟨none, none, none, [], [], []⟩ .started 1 10) ∧
    (btnRecordClick
        (btnRecordClick ⟨none, none, none, [], [], []⟩ .started 1 10)
        .started 2 20).acquiredStreams = [1] ∧
    (btnRecordClick
        (btnRecordClick ⟨none, none, none, [], [], []⟩ .started 1 10)
        .started 2 20).mediaRecorder = some false := by
  have h := c7_second_click_stops
    (btnRecordClick ⟨none, none, none, [], [], []⟩ .started 1 10)
    .started 2 20 rfl
  exact ⟨h.1, h.2.1.trans rfl, h.2.2⟩

/-- C10: `showResults` is total on degenerate data: a missing or empty
`top_genres` renders zero bars, and a zero first confidence renders every
bar at width 0 instead of dividing by zero. -/
theorem c10_degenerate_total (data : Prediction) (prev : Display) :
    (data.top_genres = none → (showResults data prev).chartBars = []) ∧
    (data.top_genres = some [] → (showResults data prev).chartBars = []) ∧
    (∀ hd tl, data.top_genres = some (hd :: tl) → hd.confidence = 0 →
      (showResults data prev).chartBars.map ChartRow.width
        = (hd :: tl).map fun _ => (0 : ℚ)) := by
  refine ⟨fun h => ?_, fun h => ?_, fun hd tl h h0 => ?_⟩
  · simp [showResults, h, chartRows]
  · simp [showResults, h, chartRows]
  · have hb : (showResults data prev).chartBars = chartRows (hd :: tl) := by
      simp [showResults, h]
    rw [hb, chartRows_map_width]
    have hm : maxConfOf (hd :: tl) = hd.confidence := rfl
    rw [hm, h0]
    simp

/-- C10 witness: the three degenerate shapes — absent list, empty list,
and an all-zero-confidence list — rendered at concrete inputs. -/
theorem c10_degenerate_witness :
    (showResults
        { genre := "rock", confidence := 1/2,
          top_genres := none, error := none } initialDisplay).chartBars
      = [] ∧
    (showResults
        { genre := "rock", confidence := 1/2,
          top_genres := some [], error := none } initialDisplay).chartBars
      = [] ∧
    (showResults
        { genre := "rock", confidence := 0,
          top_genres := some [GenreConf.mk "rock" 0, GenreConf.mk "pop" 0],
          error := none } initialDisplay).chartBars.map ChartRow.width
      = [0, 0] := by
  refine ⟨(c10_degenerate_total _ initialDisplay).1 rfl,
    (c10_degenerate_total _ initialDisplay).2.1 rfl,
    ((c10_degenerate_total
        { genre := "rock", confidence := 0,
          top_genres := some [GenreConf.mk "rock" 0, GenreConf.mk "pop" 0],
          error := none } initialDisplay).2.2
      (GenreConf.mk "rock" 0) [GenreConf.mk "pop" 0] rfl rfl).trans rfl⟩

end GenreFrontend
